import Mathlib

/-!
Shallow embedding of the `ai` crate (rs-ai repository): the typed
request-builder / structured-output schema pipeline, its JSON wire model,
and the transport client's response handling.  Rust structs become Lean
structures, serde serialization/deserialization becomes explicit functions
to and from a JSON value type, and the builder's mutating methods become
state-passing functions.  The HTTP transport itself is external: network
operations are modelled by passing the response a request would receive.
-/

/-- A JSON document.  Numbers are modelled as integers: the JSON values
exchanged by the claims under verification contain no fractional numbers. -/
inductive JsonVal where
  | null : JsonVal
  | bool (b : Bool) : JsonVal
  | num (n : Int) : JsonVal
  | str (s : String) : JsonVal
  | arr (items : List JsonVal) : JsonVal
  | obj (fields : List (String × JsonVal)) : JsonVal

/-- First value bound to a key in a JSON object field list. -/
def lookupKey : List (String × JsonVal) → String → Option JsonVal
  | [], _ => none
  | (k, v) :: rest, key => if k = key then some v else lookupKey rest key

/-- Whether a serialized JSON object contains the given key. -/
def hasKey (j : JsonVal) (key : String) : Bool :=
  match j with
  | JsonVal.obj fields => (lookupKey fields key).isSome
  | _ => false

/-- The keys of a JSON object, in emission order. -/
def objKeys : JsonVal → List String
  | JsonVal.obj fields => fields.map (fun p => p.fst)
  | _ => []

def getField (j : JsonVal) (key : String) : Option JsonVal :=
  match j with
  | JsonVal.obj fields => lookupKey fields key
  | _ => none

def asString : JsonVal → Option String
  | JsonVal.str s => some s
  | _ => none

def asInt : JsonVal → Option Int
  | JsonVal.num n => some n
  | _ => none

def asNat : JsonVal → Option Nat
  | JsonVal.num n => if n < 0 then none else some n.toNat
  | _ => none

def asBool : JsonVal → Option Bool
  | JsonVal.bool b => some b
  | _ => none

def asArr : JsonVal → Option (List JsonVal)
  | JsonVal.arr items => some items
  | _ => none

/- Character constants used by the JSON text parser.  Written via code
points to keep the parser readable. -/

def quoteChar : Char := Char.ofNat 34
def backslashChar : Char := Char.ofNat 92
def slashChar : Char := Char.ofNat 47
def lbraceChar : Char := Char.ofNat 123
def rbraceChar : Char := Char.ofNat 125
def lbrackChar : Char := Char.ofNat 91
def rbrackChar : Char := Char.ofNat 93
def commaChar : Char := Char.ofNat 44
def colonChar : Char := Char.ofNat 58
def minusChar : Char := Char.ofNat 45
def spaceChar : Char := Char.ofNat 32
def tabChar : Char := Char.ofNat 9
def nlChar : Char := Char.ofNat 10
def crChar : Char := Char.ofNat 13

def skipWs : List Char → List Char
  | [] => []
  | c :: cs =>
    if c = spaceChar ∨ c = tabChar ∨ c = nlChar ∨ c = crChar then skipWs cs
    else c :: cs

/-- Reads the body of a JSON string after its opening quote, decoding the
standard single-character escapes, and returns the decoded characters
together with the input remaining after the closing quote. -/
def parseStringChars : List Char → Option (List Char × List Char)
  | [] => none
  | c :: cs =>
    if c = quoteChar then some ([], cs)
    else if c = backslashChar then
      match cs with
      | [] => none
      | e :: cs2 =>
        let decoded : Option Char :=
          if e = quoteChar then some quoteChar
          else if e = backslashChar then some backslashChar
          else if e = slashChar then some slashChar
          else if e = 'n' then some nlChar
          else if e = 't' then some tabChar
          else if e = 'r' then some crChar
          else if e = 'b' then some (Char.ofNat 8)
          else if e = 'f' then some (Char.ofNat 12)
          else none
        match decoded with
        | none => none
        | some d =>
          match parseStringChars cs2 with
          | none => none
          | some (out, rest) => some (d :: out, rest)
    else
      match parseStringChars cs with
      | none => none
      | some (out, rest) => some (c :: out, rest)

/-- Splits a leading run of decimal digits from the input. -/
def takeDigits : List Char → (List Char × List Char)
  | [] => ([], [])
  | c :: cs =>
    if c.isDigit then
      let (ds, rest) := takeDigits cs
      (c :: ds, rest)
    else ([], c :: cs)

def digitsToNat (ds : List Char) : Nat :=
  ds.foldl (fun acc c => acc * 10 + (c.toNat - 48)) 0

/-- A character that would continue a non-integer JSON number. -/
def isNumCont (cs : List Char) : Bool :=
  match cs with
  | [] => false
  | c :: _ => c = '.' ∨ c = 'e' ∨ c = 'E'

mutual

/-- Recursive-descent parser for JSON text, modelling the external
serde_json parser on the JSON fragment exchanged by this library
(integers only; no unicode escapes).  Fuel bounds the nesting depth. -/
def parseValue : Nat → List Char → Option (JsonVal × List Char)
  | 0, _ => none
  | Nat.succ fuel, input =>
    match skipWs input with
    | [] => none
    | c :: cs =>
      if c = lbraceChar then
        match skipWs cs with
        | [] => none
        | d :: ds =>
          if d = rbraceChar then some (JsonVal.obj [], ds)
          else parseMembers fuel (d :: ds) []
      else if c = lbrackChar then
        match skipWs cs with
        | [] => none
        | d :: ds =>
          if d = rbrackChar then some (JsonVal.arr [], ds)
          else parseItems fuel (d :: ds) []
      else if c = quoteChar then
        match parseStringChars cs with
        | some (out, rest) => some (JsonVal.str (String.mk out), rest)
        | none => none
      else if c = 't' then
        match cs with
        | 'r' :: 'u' :: 'e' :: rest => some (JsonVal.bool true, rest)
        | _ => none
      else if c = 'f' then
        match cs with
        | 'a' :: 'l' :: 's' :: 'e' :: rest => some (JsonVal.bool false, rest)
        | _ => none
      else if c = 'n' then
        match cs with
        | 'u' :: 'l' :: 'l' :: rest => some (JsonVal.null, rest)
        | _ => none
      else if c = minusChar then
        match takeDigits cs with
        | ([], _) => none
        | (ds, rest) =>
          if isNumCont rest then none
          else some (JsonVal.num (-(Int.ofNat (digitsToNat ds))), rest)
      else if c.isDigit then
        match takeDigits (c :: cs) with
        | (ds, rest) =>
          if isNumCont rest then none
          else some (JsonVal.num (Int.ofNat (digitsToNat ds)), rest)
      else none

/-- Parses the members of a JSON object after its opening brace. -/
def parseMembers : Nat → List Char → List (String × JsonVal) →
    Option (JsonVal × List Char)
  | 0, _, _ => none
  | Nat.succ fuel, input, acc =>
    match skipWs input with
    | [] => none
    | c :: cs =>
      if c = quoteChar then
        match parseStringChars cs with
        | none => none
        | some (key, rest) =>
          match skipWs rest with
          | [] => none
          | d :: ds =>
            if d = colonChar then
              match parseValue fuel ds with
              | none => none
              | some (v, rest2) =>
                match skipWs rest2 with
                | [] => none
                | e :: es =>
                  if e = commaChar then
                    parseMembers fuel es (acc ++ [(String.mk key, v)])
                  else if e = rbraceChar then
                    some (JsonVal.obj (acc ++ [(String.mk key, v)]), es)
                  else none
            else none
      else none

/-- Parses the items of a JSON array after its opening bracket. -/
def parseItems : Nat → List Char → List JsonVal →
    Option (JsonVal × List Char)
  | 0, _, _ => none
  | Nat.succ fuel, input, acc =>
    match parseValue fuel input with
    | none => none
    | some (v, rest) =>
      match skipWs rest with
      | [] => none
      | e :: es =>
        if e = commaChar then parseItems fuel es (acc ++ [v])
        else if e = rbrackChar then some (JsonVal.arr (acc ++ [v]), es)
        else none

end

/-- Parses a complete JSON document from a string, requiring only
whitespace to remain. -/
def parseJsonStr (s : String) : Option JsonVal :=
  match parseValue (s.length + 1) s.data with
  | some (v, rest) => if (skipWs rest).isEmpty then some v else none
  | none => none

/- ===== Data model (src/ai/src/json_types.rs) ===== -/

/-- A function call inside a tool call (json_types.rs `JsonFunctionCall`). -/
structure JsonFunctionCall where
  name : String
  arguments : String

/-- A tool call inside a message (json_types.rs `JsonToolCall`).  The Rust
field `r#type` serializes under the key "type"; `function_call` is renamed
to "function". -/
structure JsonToolCall where
  index : Int
  id : String
  type : String
  function_call : JsonFunctionCall

/-- A chat message (json_types.rs `Message`).  `tool_call_id` and
`tool_calls` carry serde defaults and are skipped when empty. -/
structure Message where
  role : String
  content : String
  tool_call_id : String
  tool_calls : List JsonToolCall

/-- A single choice of the chat completion response (json_types.rs
`Choice`). -/
structure Choice where
  index : Int
  finish_reason : String
  native_finish_reason : String
  message : Message

/-- Token usage of a chat completion response (json_types.rs `Usage`). -/
structure Usage where
  prompt_tokens : Int
  completion_tokens : Int
  total_tokens : Int

/-- The chat completion response envelope (json_types.rs
`ChatCompletionResponse`).  `provider`, `model`, `object` and
`system_fingerprint` carry serde defaults. -/
structure ChatCompletionResponse where
  id : String
  provider : String
  model : String
  object : String
  system_fingerprint : Option String
  usage : Usage
  created : Int
  choices : List Choice

/-- The function definition of a tool (json_types.rs `JsonFunctionInfo`).
The schemars `RootSchema` parameter document is represented by the JSON
value it serializes to. -/
structure JsonFunctionInfo where
  name : String
  description : String
  strict : Bool
  parameters : JsonVal

/-- A tool of the chat completion request (json_types.rs `JsonTool`).
`tool_type` serializes under the key "type". -/
structure JsonTool where
  tool_type : String
  function : JsonFunctionInfo

/-- Description part of a Function tool choice (json_types.rs
`ToolChoiceFunctionDesc`). -/
structure ToolChoiceFunctionDesc where
  name : String

/-- A function tool choice (json_types.rs `ToolChoiceFunction`). -/
structure ToolChoiceFunction where
  type : String
  function : ToolChoiceFunctionDesc

/-- The tool choice policy (json_types.rs `ToolChoice`): serde renames
`Auto` to "auto" and `Required` to "required"; `Function` is untagged. -/
inductive ToolChoice where
  | auto : ToolChoice
  | required : ToolChoice
  | function (f : ToolChoiceFunction) : ToolChoice

/-- Schema wrapper for structured output (json_types.rs
`JsonSchemaDescription`); the `RootSchema` document is represented by the
JSON value it serializes to. -/
structure JsonSchemaDescription where
  name : String
  strict : Bool
  schema : JsonVal

/-- The response format of a request (json_types.rs `ResponseFormat`).
`schema_type` serializes under the key "type"; `json_schema` has no skip
attribute, so a `none` serializes as JSON null. -/
structure ResponseFormat where
  schema_type : String
  json_schema : Option JsonSchemaDescription

/-- The chat completion request body (json_types.rs
`ChatCompletionRequest`).  `tools` is skipped when empty; `tool_choice`
and `response_format` are skipped when none. -/
structure ChatCompletionRequest where
  model : String
  messages : List Message
  tools : List JsonTool
  tool_choice : Option ToolChoice
  response_format : Option ResponseFormat

/-- ChatCompletionRequest::new (json_types.rs): starts from the given
model and messages with no tools, no tool choice and no response
format. -/
def ChatCompletionRequest.new (model : String) (messages : List Message) :
    ChatCompletionRequest :=
  { model := model
    messages := messages
    tools := []
    tool_choice := none
    response_format := none }

/-- The crate error type.  Variants `IO` through `Deserialization` are
declared in src/ai/src/error.rs; `BadRequest` and `ToolNotFound` are the
variants constructed by src/ai/src/lib.rs (`Error::BadRequest(body)` at
the 400 branch of `chat_completion`, `Error::ToolNotFound(name)` in
`set_tool_choice`).  Transport error payloads are carried as strings and
status codes as naturals. -/
inductive CrateError where
  | ioError (msg : String) : CrateError
  | internalError (msg : String) : CrateError
  | httpError (msg : String) : CrateError
  | httpErrorWithStatusCode (status : Nat) : CrateError
  | deserialization (msg : String) : CrateError
  | badRequest (body : String) : CrateError
  | toolNotFound (name : String) : CrateError

/- ===== Serialization (serde derive semantics on the structs above) ===== -/

/-- Serde serialization of a `JsonFunctionCall`. -/
def serializeJsonFunctionCall (f : JsonFunctionCall) : JsonVal :=
  JsonVal.obj [("name", JsonVal.str f.name),
               ("arguments", JsonVal.str f.arguments)]

/-- Serde serialization of a `JsonToolCall`: fields in declaration order,
`r#type` under "type", `function_call` renamed to "function". -/
def serializeJsonToolCall (t : JsonToolCall) : JsonVal :=
  JsonVal.obj [("index", JsonVal.num t.index),
               ("id", JsonVal.str t.id),
               ("type", JsonVal.str t.type),
               ("function", serializeJsonFunctionCall t.function_call)]

/-- Serde serialization of a `Message`: `tool_call_id` is skipped when the
string is empty and `tool_calls` when the list is empty
(skip_serializing_if attributes in json_types.rs). -/
def serializeMessage (m : Message) : JsonVal :=
  JsonVal.obj
    ([("role", JsonVal.str m.role), ("content", JsonVal.str m.content)] ++
     (if m.tool_call_id.isEmpty then []
      else [("tool_call_id", JsonVal.str m.tool_call_id)]) ++
     (if m.tool_calls.isEmpty then []
      else [("tool_calls", JsonVal.arr (m.tool_calls.map serializeJsonToolCall))]))

/-- Serde serialization of a `JsonFunctionInfo`. -/
def serializeJsonFunctionInfo (f : JsonFunctionInfo) : JsonVal :=
  JsonVal.obj [("name", JsonVal.str f.name),
               ("description", JsonVal.str f.description),
               ("strict", JsonVal.bool f.strict),
               ("parameters", f.parameters)]

/-- Serde serialization of a `JsonTool`: `tool_type` under "type". -/
def serializeJsonTool (t : JsonTool) : JsonVal :=
  JsonVal.obj [("type", JsonVal.str t.tool_type),
               ("function", serializeJsonFunctionInfo t.function)]

/-- Serde serialization of a `ToolChoice`: renamed unit variants, untagged
function variant (matches the tests in json_types.rs). -/
def serializeToolChoice : ToolChoice → JsonVal
  | ToolChoice.auto => JsonVal.str "auto"
  | ToolChoice.required => JsonVal.str "required"
  | ToolChoice.function f =>
    JsonVal.obj [("type", JsonVal.str f.type),
                 ("function", JsonVal.obj [("name", JsonVal.str f.function.name)])]

/-- Serde serialization of a `JsonSchemaDescription`. -/
def serializeJsonSchemaDescription (d : JsonSchemaDescription) : JsonVal :=
  JsonVal.obj [("name", JsonVal.str d.name),
               ("strict", JsonVal.bool d.strict),
               ("schema", d.schema)]

/-- Serde serialization of a `ResponseFormat`: `json_schema` has no skip
attribute, so `none` becomes JSON null. -/
def serializeResponseFormat (r : ResponseFormat) : JsonVal :=
  JsonVal.obj [("type", JsonVal.str r.schema_type),
               ("json_schema",
                match r.json_schema with
                | none => JsonVal.null
                | some d => serializeJsonSchemaDescription d)]

/-- Serde serialization of a `ChatCompletionRequest`: fields in
declaration order; `tools` skipped when empty, `tool_choice` and
`response_format` skipped when none. -/
def serializeChatCompletionRequest (r : ChatCompletionRequest) : JsonVal :=
  JsonVal.obj
    ([("model", JsonVal.str r.model),
      ("messages", JsonVal.arr (r.messages.map serializeMessage))] ++
     (if r.tools.isEmpty then []
      else [("tools", JsonVal.arr (r.tools.map serializeJsonTool))]) ++
     (match r.tool_choice with
      | none => []
      | some tc => [("tool_choice", serializeToolChoice tc)]) ++
     (match r.response_format with
      | none => []
      | some rf => [("response_format", serializeResponseFormat rf)]))

/- ===== Deserialization (serde derive semantics) ===== -/

/-- Serde decode of a required `String` field. -/
def decodeReqString (j : JsonVal) (key : String) : Option String :=
  (getField j key).bind asString

/-- Serde decode of a `String` field carrying #[serde(default)]: a missing
key yields the empty string; a present value must be a JSON string. -/
def decodeDefaultString (j : JsonVal) (key : String) : Option String :=
  match getField j key with
  | none => some ""
  | some v => asString v

/-- Serde decode of an `Option<String>` field: missing or null yields
none, a string yields some, anything else fails. -/
def decodeOptString (j : JsonVal) (key : String) : Option (Option String) :=
  match getField j key with
  | none => some none
  | some JsonVal.null => some none
  | some (JsonVal.str s) => some (some s)
  | some _ => none

/-- Serde decode of a required `i64` field. -/
def decodeReqInt (j : JsonVal) (key : String) : Option Int :=
  (getField j key).bind asInt

/-- Serde decode of a required `u64` field. -/
def decodeReqNat (j : JsonVal) (key : String) : Option Nat :=
  (getField j key).bind asNat

/-- Serde decode of an `Option<u64>` field. -/
def decodeOptNat (j : JsonVal) (key : String) : Option (Option Nat) :=
  match getField j key with
  | none => some none
  | some JsonVal.null => some none
  | some v => (asNat v).map some

/-- Serde decode of a list of strings. -/
def decodeStringList (items : List JsonVal) : Option (List String) :=
  items.mapM asString

/-- Serde decode of `JsonFunctionCall` (json_types.rs). -/
def decodeJsonFunctionCall (j : JsonVal) : Option JsonFunctionCall := do
  let name ← decodeReqString j "name"
  let arguments ← decodeReqString j "arguments"
  pure { name := name, arguments := arguments }

/-- Serde decode of `JsonToolCall` (json_types.rs): `r#type` reads the key
"type", `function_call` reads the renamed key "function". -/
def decodeJsonToolCall (j : JsonVal) : Option JsonToolCall := do
  let index ← decodeReqInt j "index"
  let id ← decodeReqString j "id"
  let ty ← decodeReqString j "type"
  let fc ← (getField j "function").bind decodeJsonFunctionCall
  pure { index := index, id := id, type := ty, function_call := fc }

/-- Serde decode of `Message` (json_types.rs): `tool_call_id` defaults to
the empty string, `tool_calls` to the empty list, when missing. -/
def decodeMessage (j : JsonVal) : Option Message := do
  let role ← decodeReqString j "role"
  let content ← decodeReqString j "content"
  let tcid ← decodeDefaultString j "tool_call_id"
  let tcs ←
    match getField j "tool_calls" with
    | none => some []
    | some v => (asArr v).bind (fun items => items.mapM decodeJsonToolCall)
  pure { role := role, content := content, tool_call_id := tcid,
         tool_calls := tcs }

/-- Serde decode of `Choice` (json_types.rs): all four fields required. -/
def decodeChoice (j : JsonVal) : Option Choice := do
  let index ← decodeReqInt j "index"
  let fr ← decodeReqString j "finish_reason"
  let nfr ← decodeReqString j "native_finish_reason"
  let msg ← (getField j "message").bind decodeMessage
  pure { index := index, finish_reason := fr, native_finish_reason := nfr,
         message := msg }

/-- Serde decode of `Usage` (json_types.rs). -/
def decodeUsage (j : JsonVal) : Option Usage := do
  let p ← decodeReqInt j "prompt_tokens"
  let c ← decodeReqInt j "completion_tokens"
  let t ← decodeReqInt j "total_tokens"
  pure { prompt_tokens := p, completion_tokens := c, total_tokens := t }

/-- Serde decode of `ChatCompletionResponse` (json_types.rs): `provider`,
`model`, `object` default to the empty string, `system_fingerprint` to
none; `id`, `usage`, `created` and `choices` are required; unknown keys
are ignored. -/
def decodeChatCompletionResponse (j : JsonVal) :
    Option ChatCompletionResponse := do
  let id ← decodeReqString j "id"
  let provider ← decodeDefaultString j "provider"
  let model ← decodeDefaultString j "model"
  let object ← decodeDefaultString j "object"
  let sf ← decodeOptString j "system_fingerprint"
  let usage ← (getField j "usage").bind decodeUsage
  let created ← decodeReqInt j "created"
  let choices ← (getField j "choices").bind
    (fun v => (asArr v).bind (fun items => items.mapM decodeChoice))
  pure { id := id, provider := provider, model := model, object := object,
         system_fingerprint := sf, usage := usage, created := created,
         choices := choices }

/-- The weather tool parameter type (src/ai-cli/src/main.rs and
tool_test.rs `WeatherParameter` with a single documented field
`location: String`). -/
structure WeatherParameter where
  location : String

/-- Serde decode of `WeatherParameter`. -/
def decodeWeatherParameter (j : JsonVal) : Option WeatherParameter := do
  let location ← decodeReqString j "location"
  pure { location := location }

/- ===== Model catalog (src/ai/src/models.rs) ===== -/

/-- Model architecture metadata (models.rs `JsonArchitecture`). -/
structure JsonArchitecture where
  modality : String
  input_modalities : List String
  output_modalities : List String
  tokenizer : String
  instruct_type : Option String

/-- Model pricing metadata (models.rs `JsonPricing`). -/
structure JsonPricing where
  prompt : String
  completion : String
  request : Option String
  image : Option String
  web_search : Option String
  internal_reasoning : Option String
  input_cache_read : Option String
  input_cache_write : Option String

/-- Top-provider metadata (models.rs `JsonTopProvider`). -/
structure JsonTopProvider where
  context_length : Option Nat
  max_completion_tokens : Option Nat
  is_moderated : Bool

/-- One model of the catalog (models.rs `LLMModel`).  The Rust
`HashMap`/`HashSet` fields are represented by their entry lists in decode
order. -/
structure LLMModel where
  id : String
  hugging_face_id : Option String
  name : String
  created : Nat
  description : String
  context_length : Nat
  architecture : JsonArchitecture
  pricing : JsonPricing
  top_provider : JsonTopProvider
  per_request_limits : Option (List (String × String))
  supported_parameters : List String

/-- The JSON model listing (models.rs `JsonModels`): the list is read from
the renamed key "data". -/
structure JsonModels where
  models : List LLMModel

/-- The model catalog (models.rs `LLMModels`). -/
structure LLMModels where
  models : JsonModels

/-- LLMModels::new (models.rs). -/
def LLMModels.new (models : JsonModels) : LLMModels :=
  { models := models }

/-- LLMModels::get_models (models.rs): the full ordered list as
fetched. -/
def LLMModels.get_models (m : LLMModels) : List LLMModel :=
  m.models.models

/-- Serde decode of `JsonArchitecture` (models.rs). -/
def decodeJsonArchitecture (j : JsonVal) : Option JsonArchitecture := do
  let modality ← decodeReqString j "modality"
  let im ← (getField j "input_modalities").bind
    (fun v => (asArr v).bind decodeStringList)
  let om ← (getField j "output_modalities").bind
    (fun v => (asArr v).bind decodeStringList)
  let tokenizer ← decodeReqString j "tokenizer"
  let it ← decodeOptString j "instruct_type"
  pure { modality := modality, input_modalities := im,
         output_modalities := om, tokenizer := tokenizer,
         instruct_type := it }

/-- Serde decode of `JsonPricing` (models.rs). -/
def decodeJsonPricing (j : JsonVal) : Option JsonPricing := do
  let prompt ← decodeReqString j "prompt"
  let completion ← decodeReqString j "completion"
  let request ← decodeOptString j "request"
  let image ← decodeOptString j "image"
  let ws ← decodeOptString j "web_search"
  let ir ← decodeOptString j "internal_reasoning"
  let icr ← decodeOptString j "input_cache_read"
  let icw ← decodeOptString j "input_cache_write"
  pure { prompt := prompt, completion := completion, request := request,
         image := image, web_search := ws, internal_reasoning := ir,
         input_cache_read := icr, input_cache_write := icw }

/-- Serde decode of `JsonTopProvider` (models.rs). -/
def decodeJsonTopProvider (j : JsonVal) : Option JsonTopProvider := do
  let cl ← decodeOptNat j "context_length"
  let mct ← decodeOptNat j "max_completion_tokens"
  let im ← (getField j "is_moderated").bind asBool
  pure { context_length := cl, max_completion_tokens := mct,
         is_moderated := im }

/-- Serde decode of a map of strings (for `per_request_limits`). -/
def decodeStringMap (j : JsonVal) : Option (List (String × String)) :=
  match j with
  | JsonVal.obj fields =>
    fields.mapM (fun p => (asString p.snd).map (fun s => (p.fst, s)))
  | _ => none

/-- Serde decode of `LLMModel` (models.rs). -/
def decodeLLMModel (j : JsonVal) : Option LLMModel := do
  let id ← decodeReqString j "id"
  let hf ← decodeOptString j "hugging_face_id"
  let name ← decodeReqString j "name"
  let created ← decodeReqNat j "created"
  let description ← decodeReqString j "description"
  let cl ← decodeReqNat j "context_length"
  let arch ← (getField j "architecture").bind decodeJsonArchitecture
  let pricing ← (getField j "pricing").bind decodeJsonPricing
  let tp ← (getField j "top_provider").bind decodeJsonTopProvider
  let prl ←
    match getField j "per_request_limits" with
    | none => some none
    | some JsonVal.null => some none
    | some v => (decodeStringMap v).map some
  let sp ← (getField j "supported_parameters").bind
    (fun v => (asArr v).bind decodeStringList)
  pure { id := id, hugging_face_id := hf, name := name, created := created,
         description := description, context_length := cl,
         architecture := arch, pricing := pricing, top_provider := tp,
         per_request_limits := prl, supported_parameters := sp }

/-- Serde decode of `JsonModels` (models.rs): reads the key "data". -/
def decodeJsonModels (j : JsonVal) : Option JsonModels := do
  let models ← (getField j "data").bind
    (fun v => (asArr v).bind (fun items => items.mapM decodeLLMModel))
  pure { models := models }

/- ===== Schema codec (src/ai/src/tools.rs) ===== -/

/-- A field of a described parameter shape: name, JSON type tag, optional
marker and documentation string.  This is the explicit type descriptor the
spec prescribes in place of the external schemars reflection. -/
structure FieldDescriptor where
  name : String
  typeTag : String
  optional : Bool
  description : String

/-- Modelled from the spec: the schema generation performed by
`create_parameters_schema` (tools.rs) lives in the external schemars
crate, so the codec is modelled from the spec's contract: given a type
descriptor it produces an object schema with type "object", a properties
map keyed by field name in insertion order whose entries carry type and
description (optional fields additionally marked nullable), a required set
of exactly the non-optional field names, and additionalProperties false.
The repository's reference test (structured_output_test.rs) exhibits
exactly this shape.  `schemaPropertyEntry` is the schema entry of one
described field: its type tag and documentation, optional fields
additionally marked nullable. -/
def schemaPropertyEntry (f : FieldDescriptor) : JsonVal :=
  JsonVal.obj
    ([("type", JsonVal.str f.typeTag),
      ("description", JsonVal.str f.description)] ++
     (if f.optional then [("nullable", JsonVal.bool true)] else []))

/-- Modelled from the spec: the object schema produced by
create_parameters_schema (tools.rs) for a described parameter shape; see
`schemaPropertyEntry`. -/
def create_parameters_schema (fields : List FieldDescriptor) : JsonVal :=
  JsonVal.obj
    [("type", JsonVal.str "object"),
     ("properties",
      JsonVal.obj (fields.map (fun f => (f.name, schemaPropertyEntry f)))),
     ("required",
      JsonVal.arr ((fields.filter (fun f => !f.optional)).map
        (fun f => JsonVal.str f.name))),
     ("additionalProperties", JsonVal.bool false)]

/-- A tool descriptor before binding (tools.rs `Tool<P>`).  The phantom
parameter type `P` is represented by its field descriptors, which the
schema codec consumes. -/
structure Tool where
  name : String
  description : String
  params : List FieldDescriptor

/-- Tool::new (tools.rs). -/
def Tool.new (name : String) (description : String)
    (params : List FieldDescriptor) : Tool :=
  { name := name, description := description, params := params }

/-- Tool::into_json (tools.rs): builds a `JsonTool` with tool type
"function", the tool's name and description, `strict := true`, and the
schema codec output for the parameter type. -/
def Tool.into_json (t : Tool) : JsonTool :=
  { tool_type := "function"
    function :=
      { name := t.name
        description := t.description
        strict := true
        parameters := create_parameters_schema t.params } }

/- ===== Request builder (src/ai/src/lib.rs ChatCompletionParameter) ===== -/

/-- The request builder state (lib.rs `ChatCompletionParameter`). -/
structure ChatCompletionParameter where
  model : String
  messages : List Message
  response_format : Option ResponseFormat
  tools : List JsonTool
  tool_choice : Option ToolChoice

/-- ChatCompletionParameter::new (lib.rs): starts with the given model and
messages, no response format, no tools, no tool choice. -/
def ChatCompletionParameter.new (model : String) (messages : List Message) :
    ChatCompletionParameter :=
  { model := model
    messages := messages
    response_format := none
    tools := []
    tool_choice := none }

/-- ChatCompletionParameter::set_response_format (lib.rs): stores the
given format, replacing any previous one. -/
def ChatCompletionParameter.set_response_format
    (p : ChatCompletionParameter) (response_format : ResponseFormat) :
    ChatCompletionParameter :=
  { p with response_format := some response_format }

/-- ChatCompletionParameter::add_message (lib.rs): appends the message. -/
def ChatCompletionParameter.add_message (p : ChatCompletionParameter)
    (message : Message) : ChatCompletionParameter :=
  { p with messages := p.messages ++ [message] }

/-- ChatCompletionParameter::add_tool (lib.rs): converts the tool to its
JSON form and appends it. -/
def ChatCompletionParameter.add_tool (p : ChatCompletionParameter)
    (tool : Tool) : ChatCompletionParameter :=
  { p with tools := p.tools ++ [tool.into_json] }

/-- ChatCompletionParameter::set_tool_choice (lib.rs): if the choice is
the Function variant and no added tool bears the named function, returns
`Error::ToolNotFound(name)` before any mutation; otherwise stores the
choice.  The Rust method mutates `self` and returns `Result<()>`; it is
embedded as a pair of the result and the post-state. -/
def ChatCompletionParameter.set_tool_choice (p : ChatCompletionParameter)
    (tool_choice : ToolChoice) :
    Except CrateError Unit × ChatCompletionParameter :=
  match tool_choice with
  | ToolChoice.function f =>
    if p.tools.any (fun tool => tool.function.name = f.function.name) then
      (Except.ok (), { p with tool_choice := some (ToolChoice.function f) })
    else
      (Except.error (CrateError.toolNotFound f.function.name), p)
  | tc => (Except.ok (), { p with tool_choice := some tc })

/- ===== Transport client (src/ai/src/lib.rs Client) ===== -/

/-- An HTTP response as seen by the client: numeric status code and body
text.  The transport layer (reqwest) is external; network operations are
modelled by passing in the response they would receive. -/
structure HttpResponse where
  status : Nat
  body : String

/-- reqwest StatusCode::is_success: 2xx statuses. -/
def isSuccessStatus (status : Nat) : Bool :=
  200 ≤ status ∧ status < 300

/-- The client state (lib.rs `Client`): API key, base URL and the lazily
cached model catalog.  The reqwest HTTP client handle itself is external
configuration. -/
structure Client where
  api_key : String
  api_url : String
  models : Option LLMModels

/-- Client::new (lib.rs): starts with no cached models. -/
def Client.new (api_key : String) (api_url : String) : Client :=
  { api_key := api_key, api_url := api_url, models := none }

/-- Client::get_models (lib.rs): if the cache is empty, issues one GET to
{base}/models (the given response models the network) and on a success
status decodes the body as `JsonModels`, caches `LLMModels::new` of it and
returns it; a non-success status yields `HTTPErrorWithStatusCode` and a
decode failure yields `Deserialization`, in both cases leaving the cache
empty.  If the cache is populated it is returned with no request.  The
triple returned is (result, post-state client, number of GETs issued). -/
def Client.get_models (c : Client) (response : HttpResponse) :
    Except CrateError LLMModels × Client × Nat :=
  match c.models with
  | some m => (Except.ok m, c, 0)
  | none =>
    if isSuccessStatus response.status then
      match (parseJsonStr response.body).bind decodeJsonModels with
      | some jm =>
        (Except.ok (LLMModels.new jm),
         { c with models := some (LLMModels.new jm) }, 1)
      | none =>
        (Except.error (CrateError.deserialization response.body), c, 1)
    else
      (Except.error (CrateError.httpErrorWithStatusCode response.status),
       c, 1)

/-- The request envelope Client::chat_completion (lib.rs) builds from the
builder state before POSTing: `ChatCompletionRequest::new` of the model
and messages, then response_format, tools and tool_choice copied over. -/
def buildChatCompletionRequest (p : ChatCompletionParameter) :
    ChatCompletionRequest :=
  { ChatCompletionRequest.new p.model p.messages with
    response_format := p.response_format
    tools := p.tools
    tool_choice := p.tool_choice }

/-- The response handling of Client::chat_completion (lib.rs): on a
success status the body is decoded as `ChatCompletionResponse` and its
`choices` are returned (decode failure yields `Deserialization`); on
status 400 the raw body is returned in `Error::BadRequest`; on any other
non-success status only the status code is returned in
`Error::HTTPErrorWithStatusCode`. -/
def chatCompletionHandleResponse (response : HttpResponse) :
    Except CrateError (List Choice) :=
  if isSuccessStatus response.status then
    match (parseJsonStr response.body).bind decodeChatCompletionResponse with
    | some r => Except.ok r.choices
    | none => Except.error (CrateError.deserialization response.body)
  else if response.status = 400 then
    Except.error (CrateError.badRequest response.body)
  else
    Except.error (CrateError.httpErrorWithStatusCode response.status)

/- ===== Concrete values used to evaluate the definitions ===== -/

/-- The tool-call arguments string of the weather response
(tool_test.rs). -/
def weatherArguments : String :=
  "\x7b\"location\":\"London, United Kingdom\"\x7d"

/-- The literal weather tool response body (the fixture decoded by
test_tool_response_decoding in tool_test.rs): one choice with
finish_reason "tool_calls" and one function tool call for
"get_weather". -/
def weatherToolResponseBody : String :=
  "\x7b\"id\":\"gen-1747167300-abc\",\"provider\":\"OpenAI\",\"model\":\"openai/gpt-4o\",\"object\":\"chat.completion\",\"created\":1747167300,\"choices\":[\x7b\"logprobs\":null,\"finish_reason\":\"tool_calls\",\"native_finish_reason\":\"tool_calls\",\"index\":0,\"message\":\x7b\"role\":\"assistant\",\"content\":\"\",\"refusal\":null,\"tool_calls\":[\x7b\"index\":0,\"id\":\"call_L8RNjCRpMAxGkCAy5ovJxkw9\",\"type\":\"function\",\"function\":\x7b\"name\":\"get_weather\",\"arguments\":\"\x7b\\\"location\\\":\\\"London, United Kingdom\\\"\x7d\"\x7d\x7d]\x7d\x7d],\"system_fingerprint\":null,\"usage\":\x7b\"prompt_tokens\":13,\"completion_tokens\":37,\"total_tokens\":50\x7d\x7d"

/-- The tool call the weather response body decodes to. -/
def weatherToolCall : JsonToolCall :=
  { index := 0
    id := "call_L8RNjCRpMAxGkCAy5ovJxkw9"
    type := "function"
    function_call := { name := "get_weather", arguments := weatherArguments } }

/-- The single choice the weather response body decodes to. -/
def weatherChoice : Choice :=
  { index := 0
    finish_reason := "tool_calls"
    native_finish_reason := "tool_calls"
    message := { role := "assistant", content := "", tool_call_id := "",
                 tool_calls := [weatherToolCall] } }

/-- A model-listing response body of one model, shaped like the
{base}/models endpoint output (models.rs test_data). -/
def modelsBody : String :=
  "\x7b\"data\":[\x7b\"id\":\"openai/gpt-4o\",\"name\":\"GPT-4o\",\"created\":1715558400,\"description\":\"A model\",\"context_length\":128000,\"architecture\":\x7b\"modality\":\"text-to-text\",\"input_modalities\":[\"text\"],\"output_modalities\":[\"text\"],\"tokenizer\":\"GPT\",\"instruct_type\":null\x7d,\"pricing\":\x7b\"prompt\":\"0.0000025\",\"completion\":\"0.00001\"\x7d,\"top_provider\":\x7b\"context_length\":128000,\"max_completion_tokens\":16384,\"is_moderated\":true\x7d,\"per_request_limits\":null,\"supported_parameters\":[\"tools\",\"tool_choice\",\"structured_outputs\"]\x7d]\x7d"

/-- The weather tool of the CLI demo (main.rs): name "get_weather" over
the WeatherParameter shape. -/
def weatherTool : Tool :=
  Tool.new "get_weather" "Get current temperature for a given location."
    [{ name := "location", typeTag := "string", optional := false,
       description := "City and country e.g. Bogota, Colombia" }]

/-- A Function tool choice for the given function name, with the type tag
"function" (as constructed by the json_types.rs tests). -/
def toolChoiceNamed (n : String) : ToolChoice :=
  ToolChoice.function { type := "function", function := { name := n } }

/-- A user message of the CLI demo (main.rs command_weather). -/
def parisPrompt : Message :=
  { role := "user"
    content := "What is the weather like in Paris today?"
    tool_call_id := ""
    tool_calls := [] }

/-- A fresh builder with no tools (main.rs command_weather before
add_tool). -/
def emptyBuilder : ChatCompletionParameter :=
  ChatCompletionParameter.new "openai/gpt-4o" [parisPrompt]

/-- The builder after adding the weather tool. -/
def builderWithWeatherTool : ChatCompletionParameter :=
  emptyBuilder.add_tool weatherTool

/-- The simulated 400 response body of the spec's error-path scenario. -/
def badSchemaBody : String := "\x7b\"error\":\"bad schema\"\x7d"

/-- A client with an empty model cache. -/
def freshClient : Client :=
  Client.new "sk-test" "https://openrouter.ai/api/v1/"

/-- A failed model-listing response. -/
def resp500 : HttpResponse := { status := 500, body := "internal error" }

/-- A successful model-listing response. -/
def respModels : HttpResponse := { status := 200, body := modelsBody }

/- ===== Theorems ===== -/

/-- C1: set_tool_choice with a Function choice naming function x fails
with the tool-not-found condition naming x when no already-added tool
bears that name, and succeeds storing the choice when such a tool was
added beforehand; the check consults only the tools present at call
time. -/
theorem set_tool_choice_function_validation
    (p : ChatCompletionParameter) (f : ToolChoiceFunction) :
    ((¬ ∃ tool ∈ p.tools, tool.function.name = f.function.name) →
      p.set_tool_choice (ToolChoice.function f) =
        (Except.error (CrateError.toolNotFound f.function.name), p)) ∧
    ((∃ tool ∈ p.tools, tool.function.name = f.function.name) →
      p.set_tool_choice (ToolChoice.function f) =
        (Except.ok (), { p with tool_choice := some (ToolChoice.function f) })) := by
  constructor
  · intro h
    have hany : (p.tools.any fun tool => tool.function.name = f.function.name) = false := by
      rw [List.any_eq_false]
      intro tool htool
      simp only [decide_eq_true_eq]
      exact fun heq => h ⟨tool, htool, heq⟩
    simp [ChatCompletionParameter.set_tool_choice, hany]
  · intro h
    have hany : (p.tools.any fun tool => tool.function.name = f.function.name) = true := by
      rw [List.any_eq_true]
      obtain ⟨tool, htool, heq⟩ := h
      exact ⟨tool, htool, by simpa using heq⟩
    simp [ChatCompletionParameter.set_tool_choice, hany]

/-- C1 witness: on a fresh builder with no tools, choosing function
"get_weather" fails with the tool-not-found condition naming it; after
adding the weather tool the same choice succeeds and is stored. -/
theorem set_tool_choice_function_validation_witness :
    emptyBuilder.set_tool_choice (toolChoiceNamed "get_weather") =
      (Except.error (CrateError.toolNotFound "get_weather"), emptyBuilder) ∧
    builderWithWeatherTool.set_tool_choice (toolChoiceNamed "get_weather") =
      (Except.ok (), { builderWithWeatherTool with
        tool_choice := some (toolChoiceNamed "get_weather") }) := by
  refine ⟨(set_tool_choice_function_validation emptyBuilder
            { type := "function", function := { name := "get_weather" } }).1 ?_,
          (set_tool_choice_function_validation builderWithWeatherTool
            { type := "function", function := { name := "get_weather" } }).2 ?_⟩
  · rintro ⟨tool, htool, -⟩
    simp [emptyBuilder, ChatCompletionParameter.new] at htool
  · refine ⟨weatherTool.into_json, ?_, rfl⟩
    simp [builderWithWeatherTool, emptyBuilder, ChatCompletionParameter.add_tool,
          ChatCompletionParameter.new]

/-- C9: set_tool_choice returns an error exactly when the choice is the
Function variant naming a function no registered tool bears; the Auto and
Required choices always succeed and are stored, even with an empty tool
list. -/
theorem set_tool_choice_error_characterization
    (p : ChatCompletionParameter) (tc : ToolChoice) :
    ((∃ e, (p.set_tool_choice tc).1 = Except.error e) ↔
      ∃ f, tc = ToolChoice.function f ∧
        ¬ ∃ tool ∈ p.tools, tool.function.name = f.function.name) ∧
    p.set_tool_choice ToolChoice.auto =
      (Except.ok (), { p with tool_choice := some ToolChoice.auto }) ∧
    p.set_tool_choice ToolChoice.required =
      (Except.ok (), { p with tool_choice := some ToolChoice.required }) := by
  refine ⟨?_, rfl, rfl⟩
  cases tc with
  | auto => simp [ChatCompletionParameter.set_tool_choice]
  | required => simp [ChatCompletionParameter.set_tool_choice]
  | function f =>
    by_cases hany : (p.tools.any fun tool => tool.function.name = f.function.name) = true
    · rw [List.any_eq_true] at hany
      obtain ⟨tool, htool, heq⟩ := hany
      have hmem : ∃ tool ∈ p.tools, tool.function.name = f.function.name :=
        ⟨tool, htool, by simpa using heq⟩
      have hany' : (p.tools.any fun tool => tool.function.name = f.function.name) = true := by
        rw [List.any_eq_true]
        obtain ⟨tool, htool, heq⟩ := hmem
        exact ⟨tool, htool, by simpa using heq⟩
      simp [ChatCompletionParameter.set_tool_choice, hany', hmem]
    · have hany' : (p.tools.any fun tool => tool.function.name = f.function.name) = false := by
        simpa using hany
      have hmem : ¬ ∃ tool ∈ p.tools, tool.function.name = f.function.name := by
        rintro ⟨tool, htool, heq⟩
        rw [List.any_eq_false] at hany'
        exact hany' tool htool (by simpa using heq)
      simp only [ChatCompletionParameter.set_tool_choice, hany', Bool.false_eq_true,
        if_false]
      constructor
      · intro _
        exact ⟨f, rfl, hmem⟩
      · intro _
        exact ⟨CrateError.toolNotFound f.function.name, rfl⟩

/-- C10: when set_tool_choice fails, the builder is left entirely
unchanged: tool_choice, model, messages, tools and response_format all
keep their previous values. -/
theorem set_tool_choice_failure_preserves_builder
    (p : ChatCompletionParameter) (tc : ToolChoice) (e : CrateError)
    (h : (p.set_tool_choice tc).1 = Except.error e) :
    (p.set_tool_choice tc).2 = p := by
  cases tc with
  | auto => simp [ChatCompletionParameter.set_tool_choice] at h
  | required => simp [ChatCompletionParameter.set_tool_choice] at h
  | function f =>
    by_cases hany : (p.tools.any fun tool => tool.function.name = f.function.name) = true
    · simp [ChatCompletionParameter.set_tool_choice, hany] at h
    · have hany' : (p.tools.any fun tool => tool.function.name = f.function.name) = false := by
        simpa using hany
      simp [ChatCompletionParameter.set_tool_choice, hany']

/-- C10 witness: the failing choice of "get_weather" on a fresh builder
without tools leaves the builder unchanged. -/
theorem set_tool_choice_failure_preserves_builder_witness :
    (emptyBuilder.set_tool_choice (toolChoiceNamed "get_weather")).1 =
      Except.error (CrateError.toolNotFound "get_weather") ∧
    (emptyBuilder.set_tool_choice (toolChoiceNamed "get_weather")).2 = emptyBuilder :=
  ⟨by rfl,
   set_tool_choice_failure_preserves_builder emptyBuilder
     (toolChoiceNamed "get_weather") (CrateError.toolNotFound "get_weather")
     (by rfl)⟩

/-- C8: set_response_format unconditionally replaces any previous
response format with the new one and leaves the model, message sequence,
tool list and tool choice unchanged. -/
theorem set_response_format_replaces
    (p : ChatCompletionParameter) (rf : ResponseFormat) :
    (p.set_response_format rf).response_format = some rf ∧
    (p.set_response_format rf).model = p.model ∧
    (p.set_response_format rf).messages = p.messages ∧
    (p.set_response_format rf).tools = p.tools ∧
    (p.set_response_format rf).tool_choice = p.tool_choice :=
  ⟨rfl, rfl, rfl, rfl, rfl⟩

/-- C7: Tool::into_json always produces a descriptor with strict true and
tool type "function", carrying the given name and description unchanged
together with the schema codec output for the parameter type. -/
theorem tool_into_json_contract
    (name desc : String) (params : List FieldDescriptor) :
    (Tool.new name desc params).into_json.function.strict = true ∧
    (Tool.new name desc params).into_json.tool_type = "function" ∧
    (Tool.new name desc params).into_json.function.name = name ∧
    (Tool.new name desc params).into_json.function.description = desc ∧
    (Tool.new name desc params).into_json.function.parameters =
      create_parameters_schema params :=
  ⟨rfl, rfl, rfl, rfl, rfl⟩

/-- C2: on a non-success HTTP response to chat_completion, status 400
yields an error carrying the raw response body verbatim, while every
other non-2xx status yields an error carrying only the status code. -/
theorem chat_completion_non_success_handling (response : HttpResponse)
    (h : isSuccessStatus response.status = false) :
    (response.status = 400 →
      chatCompletionHandleResponse response =
        Except.error (CrateError.badRequest response.body)) ∧
    (response.status ≠ 400 →
      chatCompletionHandleResponse response =
        Except.error (CrateError.httpErrorWithStatusCode response.status)) := by
  constructor
  · intro h400
    unfold chatCompletionHandleResponse
    rw [if_neg (by simp [h]), if_pos h400]
  · intro h400
    unfold chatCompletionHandleResponse
    rw [if_neg (by simp [h]), if_neg h400]

/-- C2 witness: a simulated 400 response with the bad-schema body
surfaces that exact body, and a simulated 500 response surfaces only the
status code. -/
theorem chat_completion_non_success_handling_witness :
    chatCompletionHandleResponse { status := 400, body := badSchemaBody } =
      Except.error (CrateError.badRequest badSchemaBody) ∧
    chatCompletionHandleResponse resp500 =
      Except.error (CrateError.httpErrorWithStatusCode 500) :=
  ⟨(chat_completion_non_success_handling
      { status := 400, body := badSchemaBody } (by rfl)).1 rfl,
   (chat_completion_non_success_handling resp500 (by rfl)).2 (by decide)⟩

/-- C4: serializing a Message with empty tool_call_id and empty
tool_calls omits both fields (the envelope carries exactly the role and
content keys), and serializing a request with an empty tool list omits
the tools field entirely; tool_choice and response_format are likewise
omitted when unset. -/
theorem serialization_omits_unset_fields
    (m : Message) (r : ChatCompletionRequest) :
    (m.tool_call_id = "" → m.tool_calls = [] →
      objKeys (serializeMessage m) = ["role", "content"]) ∧
    (r.tools = [] →
      hasKey (serializeChatCompletionRequest r) "tools" = false) ∧
    (r.tool_choice = none →
      hasKey (serializeChatCompletionRequest r) "tool_choice" = false) ∧
    (r.response_format = none →
      hasKey (serializeChatCompletionRequest r) "response_format" = false) := by
  refine ⟨?_, ?_, ?_, ?_⟩
  · intro h1 h2
    cases m with
    | mk role content tool_call_id tool_calls =>
      simp only at h1 h2
      subst h1
      subst h2
      rfl
  · intro h
    cases r with
    | mk model messages tools tool_choice response_format =>
      simp only at h
      subst h
      cases tool_choice <;> cases response_format <;> rfl
  · intro h
    cases r with
    | mk model messages tools tool_choice response_format =>
      simp only at h
      subst h
      cases hti : tools.isEmpty <;> cases response_format <;>
        simp [serializeChatCompletionRequest, hasKey, lookupKey, hti]
  · intro h
    cases r with
    | mk model messages tools tool_choice response_format =>
      simp only at h
      subst h
      cases hti : tools.isEmpty <;> cases tool_choice <;>
        simp [serializeChatCompletionRequest, hasKey, lookupKey, hti]

/-- C5: for every described parameter shape, the schema codec produces an
object schema: type "object"; a properties map keyed by field name in
insertion order whose entries each carry a type and a description; a
required set containing exactly the non-optional field names; and
additionalProperties false. -/
theorem create_parameters_schema_contract (fields : List FieldDescriptor) :
    getField (create_parameters_schema fields) "type" =
      some (JsonVal.str "object") ∧
    (getField (create_parameters_schema fields) "properties" =
      some (JsonVal.obj (fields.map (fun f => (f.name, schemaPropertyEntry f)))) ∧
      (fields.map (fun f => (f.name, schemaPropertyEntry f))).map
          (fun pr => pr.fst) =
        fields.map (fun f => f.name) ∧
      ∀ f ∈ fields, hasKey (schemaPropertyEntry f) "type" = true ∧
        hasKey (schemaPropertyEntry f) "description" = true) ∧
    (∃ req : List String,
      getField (create_parameters_schema fields) "required" =
        some (JsonVal.arr (req.map JsonVal.str)) ∧
      ∀ n, n ∈ req ↔ ∃ f ∈ fields, f.optional = false ∧ f.name = n) ∧
    getField (create_parameters_schema fields) "additionalProperties" =
      some (JsonVal.bool false) := by
  refine ⟨rfl, ⟨rfl, by simp, ?_⟩,
    ⟨(fields.filter (fun f => !f.optional)).map (fun f => f.name), ?_, ?_⟩, rfl⟩
  · intro f _
    cases hop : f.optional <;>
      simp [schemaPropertyEntry, hasKey, lookupKey, hop]
  · rw [List.map_map]
    rfl
  · intro n
    simp only [List.mem_map, List.mem_filter, Bool.not_eq_true']
    constructor
    · rintro ⟨f, ⟨hf, hop⟩, hn⟩
      exact ⟨f, hf, hop, hn⟩
    · rintro ⟨f, hf, hop, hn⟩
      exact ⟨f, ⟨hf, hop⟩, hn⟩

set_option maxRecDepth 400000 in
/-- C6: decoding the weather tool response body on a success status yields
exactly one choice whose message carries exactly one tool call with the
given id, type and function name, and the decoded arguments string parses
as JSON with location "London, United Kingdom". -/
theorem weather_tool_response_decoding :
    chatCompletionHandleResponse
        { status := 200, body := weatherToolResponseBody } =
      Except.ok [weatherChoice] ∧
    weatherChoice.message.tool_calls = [weatherToolCall] ∧
    weatherChoice.finish_reason = "tool_calls" ∧
    weatherToolCall.id = "call_L8RNjCRpMAxGkCAy5ovJxkw9" ∧
    weatherToolCall.type = "function" ∧
    weatherToolCall.function_call.name = "get_weather" ∧
    (parseJsonStr weatherToolCall.function_call.arguments).bind
        decodeWeatherParameter =
      some { location := "London, United Kingdom" } :=
  ⟨by rfl, rfl, rfl, rfl, rfl, rfl, by rfl⟩

/-- C3 counterexample: two sequential get_models calls on the same fresh
client, both receiving a 500 response, issue two network requests, not at
most one: the first failure leaves the cache empty. -/
theorem get_models_two_failed_calls_two_requests :
    ¬ ((freshClient.get_models resp500).2.2 +
        ((freshClient.get_models resp500).2.1.get_models resp500).2.2 ≤ 1) := by
  decide

/-- C3 amended: get_models returns the cached catalog with no request
when the cache is populated (and the cache, once populated, is never
replaced); with an empty cache it issues exactly one GET, and caches and
returns the decoded catalog exactly when the response succeeds and the
body decodes, returning an error and leaving the cache empty otherwise;
hence two sequential calls issue at most one request provided the first
call succeeds. -/
theorem get_models_cache_behavior (c : Client) (r1 r2 : HttpResponse) :
    (∀ m, c.models = some m → c.get_models r1 = (Except.ok m, c, 0)) ∧
    (c.models = none → (c.get_models r1).2.2 = 1) ∧
    (c.models = none → isSuccessStatus r1.status = true →
      ∀ jm, (parseJsonStr r1.body).bind decodeJsonModels = some jm →
        c.get_models r1 =
          (Except.ok (LLMModels.new jm),
           { c with models := some (LLMModels.new jm) }, 1)) ∧
    (c.models = none → isSuccessStatus r1.status = false →
      c.get_models r1 =
        (Except.error (CrateError.httpErrorWithStatusCode r1.status), c, 1)) ∧
    (c.models = none → isSuccessStatus r1.status = true →
      (parseJsonStr r1.body).bind decodeJsonModels = none →
      c.get_models r1 =
        (Except.error (CrateError.deserialization r1.body), c, 1)) ∧
    ((∃ m, (c.get_models r1).1 = Except.ok m) →
      (c.get_models r1).2.2 +
        ((c.get_models r1).2.1.get_models r2).2.2 ≤ 1) ∧
    (∀ m, c.models = some m → ((c.get_models r1).2.1).models = some m) := by
  cases c with
  | mk key url models =>
    cases models with
    | some m =>
      refine ⟨?_, ?_, ?_, ?_, ?_, ?_, ?_⟩
      · intro m' hm'
        cases hm'
        rfl
      · intro h
        cases h
      · intro h
        cases h
      · intro h
        cases h
      · intro h
        cases h
      · intro _
        simp [Client.get_models]
      · intro m' hm'
        cases hm'
        rfl
    | none =>
      by_cases hs : isSuccessStatus r1.status = true
      · cases hp : (parseJsonStr r1.body).bind decodeJsonModels with
        | some jm =>
          refine ⟨?_, ?_, ?_, ?_, ?_, ?_, ?_⟩
          · intro m' hm'
            cases hm'
          · intro _
            simp [Client.get_models, hs, hp]
          · intro _ _ jm' hjm'
            cases hjm'
            simp [Client.get_models, hs, hp]
          · intro _ hs'
            rw [hs] at hs'
            cases hs'
          · intro _ _ hp'
            cases hp'
          · intro _
            simp [Client.get_models, hs, hp]
          · intro m' hm'
            cases hm'
        | none =>
          refine ⟨?_, ?_, ?_, ?_, ?_, ?_, ?_⟩
          · intro m' hm'
            cases hm'
          · intro _
            simp [Client.get_models, hs, hp]
          · intro _ _ jm' hjm'
            cases hjm'
          · intro _ hs'
            rw [hs] at hs'
            cases hs'
          · intro _ _ _
            simp [Client.get_models, hs, hp]
          · rintro ⟨m', hm'⟩
            simp [Client.get_models, hs, hp] at hm'
          · intro m' hm'
            cases hm'
      · have hs' : isSuccessStatus r1.status = false := by
          simpa using hs
        refine ⟨?_, ?_, ?_, ?_, ?_, ?_, ?_⟩
        · intro m' hm'
          cases hm'
        · intro _
          simp [Client.get_models, hs']
        · intro _ ht
          rw [hs'] at ht
          cases ht
        · intro _ _
          simp [Client.get_models, hs']
        · intro _ ht
          rw [hs'] at ht
          cases ht
        · rintro ⟨m', hm'⟩
          simp [Client.get_models, hs'] at hm'
        · intro m' hm'
          cases hm'

set_option maxRecDepth 400000 in
/-- C3 amended witness: a fresh client whose first call receives a
successful decodable model listing issues one request, caches the
catalog, and a second call issues none: one request in total. -/
theorem get_models_cache_behavior_witness :
    (∃ m, (freshClient.get_models respModels).1 = Except.ok m) ∧
    (freshClient.get_models respModels).2.2 +
      ((freshClient.get_models respModels).2.1.get_models resp500).2.2 ≤ 1 := by
  have hok : ∃ m, (freshClient.get_models respModels).1 = Except.ok m := ⟨_, rfl⟩
  exact ⟨hok,
    (get_models_cache_behavior freshClient respModels resp500).2.2.2.2.2.1 hok⟩

/-- C4 witness: the Paris user prompt (empty tool_call_id, no tool calls)
serializes to exactly the role and content keys, and the envelope built
from a fresh builder omits tools, tool_choice and response_format. -/
theorem serialization_omits_unset_fields_witness :
    objKeys (serializeMessage parisPrompt) = ["role", "content"] ∧
    hasKey (serializeChatCompletionRequest
      (buildChatCompletionRequest emptyBuilder)) "tools" = false ∧
    hasKey (serializeChatCompletionRequest
      (buildChatCompletionRequest emptyBuilder)) "tool_choice" = false ∧
    hasKey (serializeChatCompletionRequest
      (buildChatCompletionRequest emptyBuilder)) "response_format" = false :=
  ⟨(serialization_omits_unset_fields parisPrompt
      (buildChatCompletionRequest emptyBuilder)).1 rfl rfl,
   (serialization_omits_unset_fields parisPrompt
      (buildChatCompletionRequest emptyBuilder)).2.1 rfl,
   (serialization_omits_unset_fields parisPrompt
      (buildChatCompletionRequest emptyBuilder)).2.2.1 rfl,
   (serialization_omits_unset_fields parisPrompt
      (buildChatCompletionRequest emptyBuilder)).2.2.2 rfl⟩

/-- C5 witness: the weather tool's location field yields a property entry
carrying a type and a description. -/
theorem create_parameters_schema_contract_witness :
    hasKey (schemaPropertyEntry
      { name := "location", typeTag := "string", optional := false,
        description := "City and country e.g. Bogota, Colombia" })
      "type" = true ∧
    hasKey (schemaPropertyEntry
      { name := "location", typeTag := "string", optional := false,
        description := "City and country e.g. Bogota, Colombia" })
      "description" = true :=
  (create_parameters_schema_contract weatherTool.params).2.1.2.2
    { name := "location", typeTag := "string", optional := false,
      description := "City and country e.g. Bogota, Colombia" }
    (by simp [weatherTool, Tool.new])

/-- C9 witness: on a fresh builder with no tools, the Auto choice is
stored successfully and a Function choice for a missing name errors. -/
theorem set_tool_choice_error_characterization_witness :
    emptyBuilder.set_tool_choice ToolChoice.auto =
      (Except.ok (), { emptyBuilder with tool_choice := some ToolChoice.auto }) ∧
    (∃ e, (emptyBuilder.set_tool_choice (toolChoiceNamed "missing")).1 =
      Except.error e) := by
  refine ⟨(set_tool_choice_error_characterization emptyBuilder ToolChoice.auto).2.1, ?_⟩
  refine (set_tool_choice_error_characterization emptyBuilder
    (toolChoiceNamed "missing")).1.mpr ?_
  refine ⟨{ type := "function", function := { name := "missing" } }, rfl, ?_⟩
  rintro ⟨tool, htool, -⟩
  simp [emptyBuilder, ChatCompletionParameter.new] at htool
